import Mathlib

/-!
Shallow embedding of the file src/api/index.py (YouTube Comments API).

Strings of the Python program are modeled as `List Char`; Python None and
exceptions are modeled with `Option` and `Except`.  The module-level
constant YOUTUBE_API_KEY is modeled as an explicit `apiKey : String`
argument (empty string = not configured, matching Python truthiness of
`if not YOUTUBE_API_KEY`).  The external Google API client
(build plus commentThreads().list(...).execute()) is modeled as an oracle
argument `upstream : ListRequest → Except String RawResponse`; an
`Except.error` covers any exception the client may raise (network, quota,
invalid id, also a failure of build itself — observationally both are an
exception inside the same try block).

The resolver extract_video_id runs four Python regexes with re.search:
    (?:v=|\/)([0-9A-Za-z_-]{11}).*
    (?:embed\/)([0-9A-Za-z_-]{11})
    (?:watch\?v=)([0-9A-Za-z_-]{11})
    ^([0-9A-Za-z_-]{11})$
re.search is leftmost-first: it tries each start position from the left,
and at a position tries the alternatives v= and / in order (they start
with different characters, so at most one applies at a given position).
The repetition {11} is exact, with no internal backtracking, and the
trailing .* constrains nothing.  In the anchored fourth pattern, the dollar
of Python re (without re.MULTILINE) matches at the end of the string or
just before a newline at the end of the string, so that pattern also
accepts an 11-character id followed by one final newline character.
-/

namespace YTC

/-- The character class `[0-9A-Za-z_-]` of the video-id regexes. -/
def isIdChar (c : Char) : Bool :=
  ('0' ≤ c && c ≤ '9') || ('A' ≤ c && c ≤ 'Z') || ('a' ≤ c && c ≤ 'z')
    || c == '_' || c == '-'

/-- Match exactly `n` characters of the id class at the front of `l`;
return the captured characters and the remainder (regex `[0-9A-Za-z_-]{n}`). -/
def grab : Nat → List Char → Option (List Char × List Char)
  | 0, l => some ([], l)
  | _ + 1, [] => none
  | n + 1, c :: rest =>
      if isIdChar c then (grab n rest).map (fun p => (c :: p.1, p.2)) else none

/-- Attempt of pattern 1, regex (?:v=|\/)([0-9A-Za-z_-]{11}).* , at one start
position: alternative `v=` first, then `/`, then the 11-char capture; the
trailing `.*` always succeeds and is dropped. -/
def tryPos1 : List Char → Option (List Char)
  | [] => none
  | c :: rest =>
      if c = 'v' then
        match rest with
        | [] => none
        | e :: rest2 => if e = '=' then (grab 11 rest2).map Prod.fst else none
      else if c = '/' then (grab 11 rest).map Prod.fst
      else none

/-- Match a literal at the front of `l`, returning the remainder. -/
def matchLit : List Char → List Char → Option (List Char)
  | [], l => some l
  | _ :: _, [] => none
  | p :: ps, c :: cs => if p = c then matchLit ps cs else none

/-- Attempt of a (?:LITERAL)([0-9A-Za-z_-]{11}) pattern at one start
position (patterns 2 and 3). -/
def tryLit (lit : List Char) (l : List Char) : Option (List Char) :=
  match matchLit lit l with
  | some rest => (grab 11 rest).map Prod.fst
  | none => none

/-- Scan of re.search for an unanchored pattern: try the pattern at each
start position from the left, first success wins.  (The empty suffix at the
very end is not tried; every attempt function used here fails on `[]`, so
this is observationally the same scan.) -/
def searchWith (t : List Char → Option (List Char)) : List Char → Option (List Char)
  | [] => none
  | c :: rest =>
      match t (c :: rest) with
      | some g => some g
      | none => searchWith t rest

/-- Pattern 1, regex (?:v=|\/)([0-9A-Za-z_-]{11}).* , under re.search. -/
def searchRule1 (l : List Char) : Option (List Char) :=
  searchWith tryPos1 l

def embedLit : List Char := ['e', 'm', 'b', 'e', 'd', '/']

def watchLit : List Char := ['w', 'a', 't', 'c', 'h', '?', 'v', '=']

/-- Patterns 2 and 3 under re.search, parameterized by their literal. -/
def searchLit (lit : List Char) (l : List Char) : Option (List Char) :=
  searchWith (tryLit lit) l

/-- Pattern 4, regex ^([0-9A-Za-z_-]{11})$ : anchored at the start; the
dollar anchor of Python re accepts the end of the string or a single final
newline. -/
def tryBare (l : List Char) : Option (List Char) :=
  match grab 11 l with
  | some (g, rest) => if rest = [] ∨ rest = ['\n'] then some g else none
  | none => none

/-- The four patterns of `extract_video_id`, in source order. -/
inductive Rule where
  | slashV : Rule
  | embed : Rule
  | watch : Rule
  | bare : Rule

def runRule : Rule → List Char → Option (List Char)
  | .slashV, l => searchRule1 l
  | .embed, l => searchLit embedLit l
  | .watch, l => searchLit watchLit l
  | .bare, l => tryBare l

def patterns : List Rule := [.slashV, .embed, .watch, .bare]

/-- The `for pattern in patterns: ... return match.group(1)` loop. -/
def firstMatch : List Rule → List Char → Option (List Char)
  | [], _ => none
  | p :: ps, l =>
      match runRule p l with
      | some g => some g
      | none => firstMatch ps l

/-- Function extract_video_id of src/api/index.py. -/
def extract_video_id (url : List Char) : Option (List Char) :=
  firstMatch patterns url

/-! Part 2: the comment fetcher (get_youtube_comments) and the HTTP handlers. -/

/-- A raised `fastapi.HTTPException`. -/
structure HTTPException where
  status_code : Nat
  detail : String
deriving DecidableEq, Repr

/-- The normalized comment dict appended by `get_youtube_comments`. -/
structure CommentRecord where
  author : String
  text : String
  likes : Int
  published_at : String
  reply_count : Int
deriving DecidableEq, Repr

/-- The keyword arguments of `youtube.commentThreads().list(...)`. -/
structure ListRequest where
  part : String
  videoId : List Char
  maxResults : Int
  order : String
  textFormat : String
deriving DecidableEq, Repr

/-- The fields of item[snippet][topLevelComment][snippet] that the code
reads. -/
structure RawTopSnippet where
  authorDisplayName : String
  textDisplay : String
  likeCount : Int
  publishedAt : String
deriving DecidableEq, Repr

/-- One element of the items list of the response; `none` in a field means
the key chain is absent, so reading it raises KeyError. -/
structure RawItem where
  topLevelSnippet : Option RawTopSnippet
  totalReplyCount : Option Int
deriving DecidableEq, Repr

/-- The upstream JSON response; response.get(items, []) defaults a missing
items key to the empty list. -/
structure RawResponse where
  items : Option (List RawItem)
deriving DecidableEq, Repr

instance {ε α : Type} [DecidableEq ε] [DecidableEq α] : DecidableEq (Except ε α)
  | .error a, .error b =>
      if h : a = b then isTrue (by rw [h]) else isFalse (fun hh => h (by injection hh))
  | .error _, .ok _ => isFalse (fun hh => Except.noConfusion hh)
  | .ok _, .error _ => isFalse (fun hh => Except.noConfusion hh)
  | .ok a, .ok b =>
      if h : a = b then isTrue (by rw [h]) else isFalse (fun hh => h (by injection hh))

/-- Normalization of one thread item (the body of the `for item in ...`
loop); a missing key raises, which aborts the whole fetch. -/
def mapItem (it : RawItem) : Except String CommentRecord :=
  match it.topLevelSnippet with
  | none => .error "KeyError"
  | some c =>
      match it.totalReplyCount with
      | none => .error "KeyError"
      | some rc =>
          .ok { author := c.authorDisplayName, text := c.textDisplay,
                likes := c.likeCount, published_at := c.publishedAt,
                reply_count := rc }

/-- The whole normalization loop: first raised error aborts; the partially
built `comments` list is discarded. -/
def mapItems : List RawItem → Except String (List CommentRecord)
  | [] => .ok []
  | it :: rest =>
      match mapItem it with
      | .error e => .error e
      | .ok c =>
          match mapItems rest with
          | .error e => .error e
          | .ok cs => .ok (c :: cs)

/-- The hard-coded mock record returned when no API key is set. -/
def demoComment : CommentRecord :=
  { author := "Demo User",
    text := "This is a demo comment. Set YOUTUBE_API_KEY environment variable to fetch real comments.",
    likes := 0,
    published_at := "2024-01-01T00:00:00Z",
    reply_count := 0 }

/-- The request the code sends: part snippet,
maxResults = min(max_results, 100), order relevance, textFormat
plainText. -/
def buildListRequest (video_id : List Char) (max_results : Int) : ListRequest :=
  { part := "snippet", videoId := video_id, maxResults := min max_results 100,
    order := "relevance", textFormat := "plainText" }

/-- Function get_youtube_comments of src/api/index.py.  `apiKey` is the
module-level `YOUTUBE_API_KEY` (`""` = unset); `upstream` is the external
Google API client, returning items or raising. -/
def get_youtube_comments (apiKey : String)
    (upstream : ListRequest → Except String RawResponse)
    (video_id : List Char) (max_results : Int) :
    Except HTTPException (List CommentRecord) :=
  if apiKey = "" then .ok [demoComment]
  else
    match upstream (buildListRequest video_id max_results) with
    | .error e => .error { status_code := 500, detail := "Error fetching comments: " ++ e }
    | .ok response =>
        match mapItems (response.items.getD []) with
        | .error e => .error { status_code := 500, detail := "Error fetching comments: " ++ e }
        | .ok comments => .ok comments

/-- The JSON body returned by the two comment endpoints. -/
structure CommentsResponse where
  video_id : List Char
  comment_count : Nat
  comments : List CommentRecord
deriving DecidableEq, Repr

/-- The `GET /comments` handler.  Python tests `if not video_id:`, which is
true for `None` and for an empty string, hence the extra emptiness test. -/
def get_comments (apiKey : String)
    (upstream : ListRequest → Except String RawResponse)
    (url : List Char) (max_results : Int) :
    Except HTTPException CommentsResponse :=
  match extract_video_id url with
  | none =>
      .error { status_code := 400,
               detail := "Invalid YouTube URL or video ID. Please provide a valid YouTube video URL." }
  | some video_id =>
      if video_id = [] then
        .error { status_code := 400,
                 detail := "Invalid YouTube URL or video ID. Please provide a valid YouTube video URL." }
      else
        match get_youtube_comments apiKey upstream video_id max_results with
        | .error e => .error e
        | .ok comments =>
            .ok { video_id := video_id, comment_count := comments.length,
                  comments := comments }

/-- The `GET /video/{video_id}/comments` handler. -/
def get_comments_by_id (apiKey : String)
    (upstream : ListRequest → Except String RawResponse)
    (video_id : List Char) (max_results : Int) :
    Except HTTPException CommentsResponse :=
  if video_id.length ≠ 11 then
    .error { status_code := 400,
             detail := "Invalid video ID format. YouTube video IDs are 11 characters long." }
  else
    match get_youtube_comments apiKey upstream video_id max_results with
    | .error e => .error e
    | .ok comments =>
        .ok { video_id := video_id, comment_count := comments.length,
              comments := comments }

/-! Part 3: helper lemmas about the regex model. -/

/-- A successful `grab` decomposes its input: the capture is a prefix of the
requested length, all of whose characters are in the id class. -/
theorem grab_eq : ∀ (n : Nat) (l g rest : List Char), grab n l = some (g, rest) →
    l = g ++ rest ∧ g.length = n ∧ g.all isIdChar = true := by
  intro n
  induction n with
  | zero =>
      intro l g rest h
      simp [grab] at h
      obtain ⟨h1, h2⟩ := h
      subst h1
      subst h2
      simp
  | succ m ih =>
      intro l g rest h
      cases l with
      | nil => simp [grab] at h
      | cons c cs =>
          rw [grab] at h
          by_cases hc : isIdChar c = true
          · rw [if_pos hc] at h
            cases hg : grab m cs with
            | none => rw [hg] at h; simp at h
            | some p =>
                rw [hg] at h
                simp at h
                obtain ⟨h1, h2⟩ := h
                obtain ⟨hl, hlen, hall⟩ := ih cs p.1 p.2 (by rw [hg])
                subst h1
                subst h2
                refine ⟨by rw [hl]; rfl, by simp [hlen], by simp [hc, hall]⟩
          · rw [if_neg hc] at h
            simp at h

/-- Capturing with `grab` after mapping to the first component gives an
11-character fully-valid token. -/
theorem grab_fst (l g : List Char) (h : (grab 11 l).map Prod.fst = some g) :
    g.length = 11 ∧ g.all isIdChar = true := by
  cases hg : grab 11 l with
  | none => rw [hg] at h; simp at h
  | some p =>
      rw [hg] at h
      simp at h
      obtain ⟨_, hlen, hall⟩ := grab_eq 11 l p.1 p.2 (by rw [hg])
      subst h
      exact ⟨hlen, hall⟩

/-- If every character of a list is in the id class, then `grab` of its full
length succeeds and captures the whole list. -/
theorem grab_append : ∀ (l r : List Char), l.all isIdChar = true →
    grab l.length (l ++ r) = some (l, r)
  | [], _, _ => rfl
  | c :: l, r, h => by
      have hc : isIdChar c = true := (List.all_eq_true.mp h) c (by simp)
      have hl : l.all isIdChar = true := by
        rw [List.all_eq_true]
        intro x hx
        exact (List.all_eq_true.mp h) x (by simp [hx])
      simp [grab, hc, grab_append l r hl]

/-- A successful literal match decomposes the input as literal ++ rest. -/
theorem matchLit_eq : ∀ (lit l r : List Char), matchLit lit l = some r → l = lit ++ r := by
  intro lit
  induction lit with
  | nil =>
      intro l r h
      simp [matchLit] at h
      simp [h]
  | cons p ps ih =>
      intro l r h
      cases l with
      | nil => simp [matchLit] at h
      | cons c cs =>
          rw [matchLit] at h
          by_cases hpc : p = c
          · rw [if_pos hpc] at h
            have hcs := ih cs r h
            subst hpc
            simp [hcs]
          · rw [if_neg hpc] at h
            simp at h

/-- The scan finds nothing exactly when the pattern fails at every start
position (assuming the pattern fails on the empty suffix). -/
theorem searchWith_none (t : List Char → Option (List Char)) (h0 : t [] = none) :
    ∀ l : List Char, (searchWith t l = none ↔ ∀ i : Nat, t (l.drop i) = none) := by
  intro l
  induction l with
  | nil => simp [searchWith, List.drop_nil, h0]
  | cons c rest ih =>
      constructor
      · intro h i
        cases hm : t (c :: rest) with
        | some g => simp only [searchWith, hm] at h; simp at h
        | none =>
            simp only [searchWith, hm] at h
            cases i with
            | zero => exact hm
            | succ j => exact (ih.mp h) j
      · intro h
        have hz : t (c :: rest) = none := h 0
        simp only [searchWith, hz]
        exact ih.mpr fun i => h (i + 1)

/-- Any property of captures of the attempt function transfers to captures
of the scan. -/
theorem searchWith_prop (t : List Char → Option (List Char)) (P : List Char → Prop)
    (hT : ∀ s g, t s = some g → P g) :
    ∀ l g, searchWith t l = some g → P g := by
  intro l
  induction l with
  | nil => intro g h; simp [searchWith] at h
  | cons c rest ih =>
      intro g h
      cases hm : t (c :: rest) with
      | some g2 =>
          simp only [searchWith, hm, Option.some.injEq] at h
          exact h ▸ hT _ _ hm
      | none =>
          simp only [searchWith, hm] at h
          exact ih g h

/-- If the attempt function fails on every all-valid list, the scan fails on
every all-valid list. -/
theorem searchWith_valid (t : List Char → Option (List Char))
    (hT : ∀ s : List Char, (∀ x ∈ s, isIdChar x = true) → t s = none) :
    ∀ l : List Char, (∀ x ∈ l, isIdChar x = true) → searchWith t l = none := by
  intro l
  induction l with
  | nil => intro _; rfl
  | cons c rest ih =>
      intro h
      simp only [searchWith, hT (c :: rest) h]
      exact ih fun x hx => h x (by simp [hx])

/-- Captures of pattern 1 are 11 valid characters. -/
theorem tryPos1_some (s g : List Char) (h : tryPos1 s = some g) :
    g.length = 11 ∧ g.all isIdChar = true := by
  cases s with
  | nil => simp [tryPos1] at h
  | cons c rest =>
      simp only [tryPos1] at h
      split at h
      · split at h
        · simp at h
        · split at h
          · exact grab_fst _ _ h
          · simp at h
      · split at h
        · exact grab_fst _ _ h
        · simp at h

/-- Captures of the literal patterns are 11 valid characters. -/
theorem tryLit_some (lit s g : List Char) (h : tryLit lit s = some g) :
    g.length = 11 ∧ g.all isIdChar = true := by
  rw [tryLit] at h
  cases hm : matchLit lit s with
  | none => rw [hm] at h; simp at h
  | some rest =>
      rw [hm] at h
      exact grab_fst _ _ h

/-- Captures of the bare-id pattern are 11 valid characters. -/
theorem tryBare_some (s g : List Char) (h : tryBare s = some g) :
    g.length = 11 ∧ g.all isIdChar = true := by
  rw [tryBare] at h
  split at h
  · rename_i g2 rest hg
    split at h
    · cases h
      obtain ⟨_, hlen, hall⟩ := grab_eq 11 s g rest hg
      exact ⟨hlen, hall⟩
    · simp at h
  · simp at h

/-- Every id the resolver returns is 11 valid characters (in particular it
is never the empty string, so the Python falsiness test on the result is
exactly the None test). -/
theorem extract_some (l g : List Char) (h : extract_video_id l = some g) :
    g.length = 11 ∧ g.all isIdChar = true := by
  simp only [extract_video_id, patterns, firstMatch, runRule] at h
  split at h
  · rename_i g1 h1
    cases h
    exact searchWith_prop tryPos1 _ tryPos1_some l g h1
  · split at h
    · rename_i g2 h2
      cases h
      exact searchWith_prop (tryLit embedLit) _ (tryLit_some embedLit) l g h2
    · split at h
      · rename_i g3 h3
        cases h
        exact searchWith_prop (tryLit watchLit) _ (tryLit_some watchLit) l g h3
      · split at h
        · rename_i g4 h4
          cases h
          exact tryBare_some l g h4
        · simp at h

/-- A hit of the embed pattern at some position yields a hit of pattern 1
five characters later (at the slash of embed/). -/
theorem tryLit_embed_pos1 (s g : List Char) (h : tryLit embedLit s = some g) :
    tryPos1 (s.drop 5) = some g := by
  rw [tryLit] at h
  cases hm : matchLit embedLit s with
  | none => rw [hm] at h; simp at h
  | some rest =>
      rw [hm] at h
      have hs := matchLit_eq embedLit s rest hm
      subst hs
      have hdrop : ((embedLit ++ rest).drop 5) = '/' :: rest := rfl
      rw [hdrop]
      simp only [tryPos1.eq_def, if_true]
      exact h

/-- A hit of the watch pattern at some position yields a hit of pattern 1
six characters later (at the v= of watch?v=). -/
theorem tryLit_watch_pos1 (s g : List Char) (h : tryLit watchLit s = some g) :
    tryPos1 (s.drop 6) = some g := by
  rw [tryLit] at h
  cases hm : matchLit watchLit s with
  | none => rw [hm] at h; simp at h
  | some rest =>
      rw [hm] at h
      have hs := matchLit_eq watchLit s rest hm
      subst hs
      have hdrop : ((watchLit ++ rest).drop 6) = 'v' :: '=' :: rest := rfl
      rw [hdrop]
      simp only [tryPos1.eq_def, if_true]
      exact h

/-- Shadowing, as the spec notes: when pattern 1 finds nothing, the embed
pattern finds nothing either. -/
theorem searchLit_embed_none (l : List Char) (h : searchRule1 l = none) :
    searchLit embedLit l = none := by
  rw [searchRule1] at h
  rw [searchLit]
  rw [searchWith_none tryPos1 rfl l] at h
  rw [searchWith_none (tryLit embedLit) rfl l]
  intro i
  cases hv : tryLit embedLit (l.drop i) with
  | none => rfl
  | some g =>
      exfalso
      have hp := tryLit_embed_pos1 _ _ hv
      rw [List.drop_drop] at hp
      rw [h (i + 5)] at hp
      simp at hp

/-- Shadowing: when pattern 1 finds nothing, the watch pattern finds
nothing either. -/
theorem searchLit_watch_none (l : List Char) (h : searchRule1 l = none) :
    searchLit watchLit l = none := by
  rw [searchRule1] at h
  rw [searchLit]
  rw [searchWith_none tryPos1 rfl l] at h
  rw [searchWith_none (tryLit watchLit) rfl l]
  intro i
  cases hv : tryLit watchLit (l.drop i) with
  | none => rfl
  | some g =>
      exfalso
      have hp := tryLit_watch_pos1 _ _ hv
      rw [List.drop_drop] at hp
      rw [h (i + 6)] at hp
      simp at hp

/-- Pattern 1 cannot fire inside a list whose characters are all in the id
class: the class contains neither / nor =. -/
theorem tryPos1_valid (st : List Char) (h : ∀ x ∈ st, isIdChar x = true) :
    tryPos1 st = none := by
  cases st with
  | nil => rfl
  | cons c rest =>
      simp only [tryPos1.eq_def]
      by_cases hv : c = 'v'
      · rw [if_pos hv]
        cases rest with
        | nil => rfl
        | cons e rest2 =>
            show (if e = '=' then (grab 11 rest2).map Prod.fst else none) = none
            rw [if_neg]
            intro he
            have hval := h e (by simp)
            rw [he] at hval
            exact absurd hval (by decide)
      · rw [if_neg hv, if_neg]
        intro hsl
        have hval := h c (by simp)
        rw [hsl] at hval
        exact absurd hval (by decide)

/-- A literal pattern whose literal contains a character outside the id
class cannot fire inside an all-valid list. -/
theorem tryLit_valid (lit st : List Char) (hbad : ∃ b ∈ lit, isIdChar b = false)
    (h : ∀ x ∈ st, isIdChar x = true) : tryLit lit st = none := by
  rw [tryLit]
  cases hm : matchLit lit st with
  | none => rfl
  | some rest =>
      exfalso
      obtain ⟨b, hb, hbf⟩ := hbad
      have hs := matchLit_eq lit st rest hm
      have hval : isIdChar b = true := h b (by rw [hs]; simp [hb])
      rw [hbf] at hval
      exact absurd hval (by simp)

/-- The bare-id pattern fails whenever the input has length other than 11
and is not an 11-character valid id followed by one newline. -/
theorem tryBare_none (l : List Char) (hlen : l.length ≠ 11)
    (hnl : ¬(l.length = 12 ∧ l.getLast? = some '\n' ∧ l.dropLast.all isIdChar = true)) :
    tryBare l = none := by
  cases hg : grab 11 l with
  | none => rw [tryBare, hg]
  | some p =>
      obtain ⟨g, rest⟩ := p
      obtain ⟨hl, hplen, hall⟩ := grab_eq 11 l g rest hg
      rw [tryBare, hg]
      show (if rest = [] ∨ rest = ['\n'] then some g else none) = none
      rw [if_neg]
      rintro (h1 | h2)
      · apply hlen
        rw [hl, h1]
        simp [hplen]
      · apply hnl
        subst h2
        subst hl
        refine ⟨by simp [hplen], by simp, ?_⟩
        rw [List.dropLast_concat]
        exact hall

/-- The bare-id pattern accepts every 11-character all-valid list and
captures it whole. -/
theorem tryBare_full (l : List Char) (hlen : l.length = 11)
    (hall : l.all isIdChar = true) : tryBare l = some l := by
  have hg : grab 11 l = some (l, []) := by
    have h := grab_append l [] hall
    rw [List.append_nil, hlen] at h
    exact h
  rw [tryBare, hg]
  show (if ([] : List Char) = [] ∨ ([] : List Char) = ['\n'] then some l else none) = some l
  rw [if_pos (Or.inl rfl)]

/-- Helper: errors raised by the fetcher always carry status 500. -/
theorem fetch_error_500 (apiKey : String)
    (upstream : ListRequest → Except String RawResponse) (vid : List Char)
    (m : Int) (e : HTTPException)
    (h : get_youtube_comments apiKey upstream vid m = .error e) :
    e.status_code = 500 := by
  rw [get_youtube_comments] at h
  split at h
  · exact Except.noConfusion h
  · split at h
    · cases h
      rfl
    · split at h
      · cases h
        rfl
      · exact Except.noConfusion h

/-- Helper: on a resolved id the url handler forwards the id unchanged to
the fetcher and wraps the result. -/
theorem get_comments_map (apiKey : String)
    (upstream : ListRequest → Except String RawResponse) (u : List Char)
    (m : Int) (vid : List Char) (hvid : extract_video_id u = some vid) :
    get_comments apiKey upstream u m
      = (get_youtube_comments apiKey upstream vid m).map
          (fun cs => { video_id := vid, comment_count := cs.length, comments := cs }) := by
  have hne : ¬(vid = []) := by
    intro hnil
    have hl := (extract_some u vid hvid).1
    rw [hnil] at hl
    simp at hl
  simp only [get_comments, hvid]
  rw [if_neg hne]
  cases hf : get_youtube_comments apiKey upstream vid m with
  | error e => simp [Except.map]
  | ok cs => simp [Except.map]

/-- Helper: with an 11-character path id the by-id handler forwards the id
unchanged to the fetcher and wraps the result. -/
theorem get_comments_by_id_map (apiKey : String)
    (upstream : ListRequest → Except String RawResponse) (vid : List Char)
    (m : Int) (h11 : vid.length = 11) :
    get_comments_by_id apiKey upstream vid m
      = (get_youtube_comments apiKey upstream vid m).map
          (fun cs => { video_id := vid, comment_count := cs.length, comments := cs }) := by
  rw [get_comments_by_id, if_neg (by simp [h11])]
  cases hf : get_youtube_comments apiKey upstream vid m with
  | error e => simp [Except.map]
  | ok cs => simp [Except.map]

/-! Part 4: the claims. -/

/-- C1: for every input string, extract_video_id tries the four extraction
rules in the fixed source order — (1) token following v= or /, (2) token
following embed/, (3) token following watch?v=, (4) the entire input as a
bare 11-character id — and returns the captured group of the first rule
whose pattern matches, never the capture of a later rule when an earlier
one matches: the result is the left-biased choice among the four rule
results. -/
theorem extract_video_id_rule_order (s : List Char) :
    extract_video_id s =
      ((searchRule1 s).or ((searchLit embedLit s).or
        ((searchLit watchLit s).or (tryBare s)))) := by
  simp only [extract_video_id, patterns, firstMatch, runRule]
  cases searchRule1 s <;> cases searchLit embedLit s <;>
    cases searchLit watchLit s <;> cases tryBare s <;> simp [Option.or]

/-- C5: for every 11-character token X over [0-9A-Za-z_-], resolving
https://www.youtube.com/watch?v=X returns X, and resolving
https://youtu.be/X returns X (via the generic slash rule). -/
theorem resolve_watch_and_short_urls (X : List Char) (hlen : X.length = 11)
    (hall : X.all isIdChar = true) :
    extract_video_id (("https://www.youtube.com/watch?v=").toList ++ X) = some X ∧
    extract_video_id (("https://youtu.be/").toList ++ X) = some X := by
  have hgrab : grab 11 X = some (X, []) := by
    have h := grab_append X [] hall
    rw [List.append_nil, hlen] at h
    exact h
  constructor
  · have hpre : ("https://www.youtube.com/watch?v=").toList
        = ['h', 't', 't', 'p', 's', ':', '/', '/', 'w', 'w', 'w', '.', 'y', 'o',
           'u', 't', 'u', 'b', 'e', '.', 'c', 'o', 'm', '/', 'w', 'a', 't', 'c',
           'h', '?', 'v', '='] := by decide
    rw [hpre]
    simp +decide [extract_video_id, patterns, firstMatch, runRule, searchRule1,
      searchWith, tryPos1, grab, isIdChar, hgrab]
  · have hpre : ("https://youtu.be/").toList
        = ['h', 't', 't', 'p', 's', ':', '/', '/', 'y', 'o', 'u', 't', 'u', '.',
           'b', 'e', '/'] := by decide
    rw [hpre]
    simp +decide [extract_video_id, patterns, firstMatch, runRule, searchRule1,
      searchWith, tryPos1, grab, isIdChar, hgrab]

theorem resolve_watch_and_short_urls_witness :
    extract_video_id (("https://www.youtube.com/watch?v=").toList ++ ("dQw4w9WgXcQ").toList)
      = some (("dQw4w9WgXcQ").toList) ∧
    extract_video_id (("https://youtu.be/").toList ++ ("dQw4w9WgXcQ").toList)
      = some (("dQw4w9WgXcQ").toList) :=
  resolve_watch_and_short_urls (("dQw4w9WgXcQ").toList) (by decide) (by decide)

/-- C6: every string of exactly 11 characters drawn from [0-9A-Za-z_-]
resolves to itself: patterns 1 to 3 cannot fire (the class contains
neither slash nor equals sign nor question mark), and the bare-id pattern
captures the whole input. -/
theorem resolve_bare_id (X : List Char) (hlen : X.length = 11)
    (hall : X.all isIdChar = true) : extract_video_id X = some X := by
  have hv : ∀ x ∈ X, isIdChar x = true := List.all_eq_true.mp hall
  have h1 : searchRule1 X = none := searchWith_valid tryPos1 tryPos1_valid X hv
  have h2 : searchLit embedLit X = none :=
    searchWith_valid (tryLit embedLit)
      (fun st hst => tryLit_valid embedLit st (by decide) hst) X hv
  have h3 : searchLit watchLit X = none :=
    searchWith_valid (tryLit watchLit)
      (fun st hst => tryLit_valid watchLit st (by decide) hst) X hv
  have h4 : tryBare X = some X := tryBare_full X hlen hall
  simp only [extract_video_id, patterns, firstMatch, runRule, h1, h2, h3, h4]

theorem resolve_bare_id_witness :
    extract_video_id (("a_b-C0123Zz").toList) = some (("a_b-C0123Zz").toList) :=
  resolve_bare_id (("a_b-C0123Zz").toList) (by decide) (by decide)

/-- C7 counterexample: the 12-character input abcdefghijk followed by a
newline contains no slash, no letter v and no equals sign — so it has no
qualifying separator and its length differs from 11 — yet extract_video_id
returns abcdefghijk instead of None: the dollar anchor of the anchored
fourth Python regex also matches just before a trailing final newline. -/
theorem resolve_newline_cex :
    ("abcdefghijk\n").toList.length = 12 ∧
    searchRule1 (("abcdefghijk\n").toList) = none ∧
    (∀ x ∈ ("abcdefghijk\n").toList, ¬(x = '/') ∧ ¬(x = 'v') ∧ ¬(x = '=')) ∧
    extract_video_id (("abcdefghijk\n").toList) = some (("abcdefghijk").toList) := by
  decide

/-- C7 (amended): extract_video_id returns None on the empty string, and
on every string whose length differs from 11 on which rule 1 finds no
match (no / or v= followed by an 11-character token of the allowed
alphabet), with one exception forced by the code: an 11-character valid id
followed by a single trailing newline still resolves (the dollar anchor of
the fourth regex accepts a final newline), so such strings must be carved
out. -/
theorem resolve_not_found_amended (s : List Char) (hlen : s.length ≠ 11)
    (hsep : searchRule1 s = none)
    (hnl : ¬(s.length = 12 ∧ s.getLast? = some '\n' ∧ s.dropLast.all isIdChar = true)) :
    extract_video_id s = none ∧ extract_video_id [] = none := by
  refine ⟨?_, by decide⟩
  have h2 := searchLit_embed_none s hsep
  have h3 := searchLit_watch_none s hsep
  have h4 := tryBare_none s hlen hnl
  simp only [extract_video_id, patterns, firstMatch, runRule, hsep, h2, h3, h4]

theorem resolve_not_found_amended_witness :
    extract_video_id (("not-a-url").toList) = none ∧ extract_video_id [] = none :=
  resolve_not_found_amended (("not-a-url").toList) (by decide) (by decide) (by decide)

/-- C2: with no credential configured (empty YOUTUBE_API_KEY), the fetcher
returns exactly one CommentRecord — author Demo User, likes 0,
reply_count 0, published_at 2024-01-01T00:00:00Z — independent of the
video id, the maxResults bound (taken in [1,100]) and the upstream
client. -/
theorem fetch_no_credential (upstream : ListRequest → Except String RawResponse)
    (vid : List Char) (m : Int) (h1 : 1 ≤ m) (h2 : m ≤ 100) :
    get_youtube_comments "" upstream vid m = .ok [demoComment] ∧
    demoComment.author = "Demo User" ∧ demoComment.likes = 0 ∧
    demoComment.reply_count = 0 ∧
    demoComment.published_at = "2024-01-01T00:00:00Z" := by
  refine ⟨?_, rfl, rfl, rfl, rfl⟩
  rw [get_youtube_comments, if_pos rfl]

theorem fetch_no_credential_witness :
    get_youtube_comments "" (fun _ => .error "boom") (("dQw4w9WgXcQ").toList) 50
      = .ok [demoComment] ∧
    demoComment.author = "Demo User" ∧ demoComment.likes = 0 ∧
    demoComment.reply_count = 0 ∧
    demoComment.published_at = "2024-01-01T00:00:00Z" :=
  fetch_no_credential (fun _ => .error "boom") (("dQw4w9WgXcQ").toList) 50
    (by decide) (by decide)

/-- C3: the result count the fetcher requests from the upstream
comment-listing call is min(maxResults, 100) for every integer maxResults;
in particular fetching with maxResults 250 is the same function of the
upstream client as fetching with maxResults 100. -/
theorem fetch_caps_max_results (apiKey : String)
    (upstream : ListRequest → Except String RawResponse) (vid : List Char)
    (m : Int) :
    (buildListRequest vid m).maxResults = min m 100 ∧
    get_youtube_comments apiKey upstream vid 250
      = get_youtube_comments apiKey upstream vid 100 := by
  refine ⟨rfl, ?_⟩
  have hmin : min (250 : Int) 100 = min (100 : Int) 100 := by decide
  have hb : buildListRequest vid 250 = buildListRequest vid 100 := by
    simp [buildListRequest, hmin]
  rw [get_youtube_comments, get_youtube_comments, hb]

/-- C4: with a credential configured, any upstream exception — including a
failure while mapping returned items — makes the fetch fail with a single
HTTP 500 whose message embeds the upstream error text; a successful fetch
is exactly a fully mapped item list (never a partial list); and the
result depends only on the one request the fetcher builds, so no retry or
second call can be observed. -/
theorem fetch_upstream_failure (apiKey : String) (h : ¬(apiKey = ""))
    (upstream : ListRequest → Except String RawResponse)
    (vid : List Char) (m : Int) :
    (∀ e, upstream (buildListRequest vid m) = .error e →
        get_youtube_comments apiKey upstream vid m
          = .error { status_code := 500, detail := "Error fetching comments: " ++ e }) ∧
    (∀ resp e, upstream (buildListRequest vid m) = .ok resp →
        mapItems (resp.items.getD []) = .error e →
        get_youtube_comments apiKey upstream vid m
          = .error { status_code := 500, detail := "Error fetching comments: " ++ e }) ∧
    (∀ cs, get_youtube_comments apiKey upstream vid m = .ok cs →
        ∃ resp, upstream (buildListRequest vid m) = .ok resp ∧
          mapItems (resp.items.getD []) = .ok cs) ∧
    (∀ upstream2 : ListRequest → Except String RawResponse,
        upstream2 (buildListRequest vid m) = upstream (buildListRequest vid m) →
        get_youtube_comments apiKey upstream2 vid m
          = get_youtube_comments apiKey upstream vid m) := by
  refine ⟨?_, ?_, ?_, ?_⟩
  · intro e he
    simp only [get_youtube_comments, if_neg h, he]
  · intro resp e hr hm
    simp only [get_youtube_comments, if_neg h, hr, hm]
  · intro cs hcs
    rw [get_youtube_comments, if_neg h] at hcs
    split at hcs
    · exact Except.noConfusion hcs
    · rename_i resp hresp
      split at hcs
      · exact Except.noConfusion hcs
      · rename_i cs2 hmap
        cases hcs
        exact ⟨resp, hresp, hmap⟩
  · intro upstream2 hu
    rw [get_youtube_comments, get_youtube_comments, if_neg h, if_neg h, hu]

theorem fetch_upstream_failure_witness :
    get_youtube_comments "k" (fun _ => .error "quota exceeded") (("dQw4w9WgXcQ").toList) 10
      = .error { status_code := 500,
                 detail := "Error fetching comments: " ++ "quota exceeded" } :=
  (fetch_upstream_failure "k" (by decide) (fun _ => .error "quota exceeded")
    (("dQw4w9WgXcQ").toList) 10).1 "quota exceeded" rfl

/-- C8: the GET /comments handler yields a 400 error exactly when
extract_video_id fails on the url parameter; on success it forwards the
resolved id to the fetcher and returns a body whose video_id is that id
and whose comment_count is the length of the returned comment list; with
no credential, the canonical watch url resolves to dQw4w9WgXcQ and yields
the one demo comment. -/
theorem get_comments_route_spec (apiKey : String)
    (upstream : ListRequest → Except String RawResponse) (url : List Char)
    (m : Int) :
    ((∃ d, get_comments apiKey upstream url m
        = .error { status_code := 400, detail := d }) ↔ extract_video_id url = none) ∧
    (∀ vid, extract_video_id url = some vid →
        get_comments apiKey upstream url m
          = (get_youtube_comments apiKey upstream vid m).map
              (fun cs => { video_id := vid, comment_count := cs.length, comments := cs })) ∧
    (apiKey = "" →
        get_comments apiKey upstream (("https://www.youtube.com/watch?v=dQw4w9WgXcQ").toList) m
          = .ok { video_id := ("dQw4w9WgXcQ").toList, comment_count := 1,
                  comments := [demoComment] }) := by
  refine ⟨⟨?_, ?_⟩, fun vid hvid => get_comments_map apiKey upstream url m vid hvid, ?_⟩
  · rintro ⟨d, hd⟩
    cases hx : extract_video_id url with
    | none => rfl
    | some vid =>
        exfalso
        rw [get_comments_map apiKey upstream url m vid hx] at hd
        cases hf : get_youtube_comments apiKey upstream vid m with
        | error e =>
            rw [hf] at hd
            simp [Except.map] at hd
            have h500 := fetch_error_500 apiKey upstream vid m e hf
            rw [hd] at h500
            simp at h500
        | ok cs =>
            rw [hf] at hd
            simp [Except.map] at hd
  · intro hx
    exact ⟨"Invalid YouTube URL or video ID. Please provide a valid YouTube video URL.",
      by simp only [get_comments, hx]⟩
  · intro hk
    subst hk
    rw [get_comments_map "" upstream
      (("https://www.youtube.com/watch?v=dQw4w9WgXcQ").toList) m
      (("dQw4w9WgXcQ").toList) (by decide)]
    rw [get_youtube_comments, if_pos rfl]
    rfl

theorem get_comments_route_spec_witness :
    get_comments "" (fun _ => .error "down")
        (("https://www.youtube.com/watch?v=dQw4w9WgXcQ").toList) 100
      = .ok { video_id := ("dQw4w9WgXcQ").toList, comment_count := 1,
              comments := [demoComment] } :=
  (get_comments_route_spec "" (fun _ => .error "down") (("x").toList) 100).2.2 rfl

/-- C9: the GET /video/video_id/comments handler yields a 400 error
exactly when the path id has length different from 11 (for example the
5-character id short); otherwise it fetches, and any successful body
carries the same id and a comment_count equal to the number of returned
comments. -/
theorem get_comments_by_id_route_spec (apiKey : String)
    (upstream : ListRequest → Except String RawResponse) (vid : List Char)
    (m : Int) :
    ((∃ d, get_comments_by_id apiKey upstream vid m
        = .error { status_code := 400, detail := d }) ↔ ¬(vid.length = 11)) ∧
    (∀ r, get_comments_by_id apiKey upstream vid m = .ok r →
        r.video_id = vid ∧ r.comment_count = r.comments.length ∧
        get_youtube_comments apiKey upstream vid m = .ok r.comments) := by
  constructor
  · constructor
    · rintro ⟨d, hd⟩ h11
      rw [get_comments_by_id_map apiKey upstream vid m h11] at hd
      cases hf : get_youtube_comments apiKey upstream vid m with
      | error e =>
          rw [hf] at hd
          simp [Except.map] at hd
          have h500 := fetch_error_500 apiKey upstream vid m e hf
          rw [hd] at h500
          simp at h500
      | ok cs =>
          rw [hf] at hd
          simp [Except.map] at hd
    · intro h11
      exact ⟨"Invalid video ID format. YouTube video IDs are 11 characters long.",
        by rw [get_comments_by_id, if_pos h11]⟩
  · intro r hr
    by_cases h11 : vid.length = 11
    · rw [get_comments_by_id_map apiKey upstream vid m h11] at hr
      cases hf : get_youtube_comments apiKey upstream vid m with
      | error e => rw [hf] at hr; exact Except.noConfusion hr
      | ok cs =>
          rw [hf] at hr
          simp [Except.map] at hr
          rw [← hr]
          exact ⟨rfl, rfl, rfl⟩
    · rw [get_comments_by_id, if_pos h11] at hr
      exact Except.noConfusion hr

theorem get_comments_by_id_route_spec_witness :
    ∃ d, get_comments_by_id "" (fun _ => .error "down") (("short").toList) 100
      = .error { status_code := 400, detail := d } :=
  (get_comments_by_id_route_spec "" (fun _ => .error "down") (("short").toList) 100).1.mpr
    (by decide)

/-- C10 (implicit): the shape check of the by-id route tests only the
length of the path id, never its characters — any string of exactly 11
characters, valid alphabet or not, passes the check and is forwarded
unmodified to the fetcher, and the route never produces a 400 for it. -/
theorem get_comments_by_id_length_only (apiKey : String)
    (upstream : ListRequest → Except String RawResponse) (m : Int)
    (s : List Char) (h : s.length = 11) :
    get_comments_by_id apiKey upstream s m
      = (get_youtube_comments apiKey upstream s m).map
          (fun cs => { video_id := s, comment_count := cs.length, comments := cs }) ∧
    (∀ d, ¬(get_comments_by_id apiKey upstream s m
        = .error { status_code := 400, detail := d })) := by
  refine ⟨get_comments_by_id_map apiKey upstream s m h, ?_⟩
  intro d hd
  rw [get_comments_by_id_map apiKey upstream s m h] at hd
  cases hf : get_youtube_comments apiKey upstream s m with
  | error e =>
      rw [hf] at hd
      simp [Except.map] at hd
      have h500 := fetch_error_500 apiKey upstream s m e hf
      rw [hd] at h500
      simp at h500
  | ok cs =>
      rw [hf] at hd
      simp [Except.map] at hd

theorem get_comments_by_id_length_only_witness :
    ("!!!!!!!!!!!").toList.length = 11 ∧
    get_comments_by_id "" (fun _ => .error "down") (("!!!!!!!!!!!").toList) 7
      = .ok { video_id := ("!!!!!!!!!!!").toList, comment_count := 1,
              comments := [demoComment] } := by
  refine ⟨by decide, ?_⟩
  rw [(get_comments_by_id_length_only "" (fun _ => .error "down") 7
    (("!!!!!!!!!!!").toList) (by decide)).1]
  decide

end YTC
